import Mathlib

/-!
Shallow embedding of `src/src/ds5/ds5-thermal-monitor.cpp` (librealsense,
`ds5_thermal_monitor`).

Modelling choices:
* Temperatures are rationals (`ℚ`); `std::numeric_limits<float>::epsilon()`
  is the exact constant `2 ^ (-23)`.
* Weak references (`std::weak_ptr`) are `Option`: `none` means `lock()` fails.
* An option query (`option::query()`) may throw, so a query outcome is
  `Except Unit ℚ`.
* Subscriber callbacks are identified by natural numbers; invoking a callback
  with a temperature is recorded as an event `(callback id, value)`.  Each
  operation returns the updated monitor together with the list of callback
  invocations it performed, in order.
-/

namespace LibRS

/-- Outcome of an `option::query()` call: a value, or a thrown exception. -/
abbrev QueryResult := Except Unit ℚ

/-- A weak reference: `lock()` yields the payload or fails. -/
abbrev Weak (α : Type) := Option α

/-- The activation sensor, observed only through `is_opened()`. -/
structure synthetic_sensor where
  is_opened : Bool
deriving DecidableEq, Repr

/-- Exact value of `std::numeric_limits<float>::epsilon()`. -/
def float_epsilon : ℚ := 1 / 2 ^ 23

/-- State of a `ds5_thermal_monitor`: the fixed configuration, the mutable
baseline `_temp_base`, the running status of the `_monitor` active object,
and the registered `_thermal_changes_callbacks` (as callback ids). -/
structure ds5_thermal_monitor where
  poll_intervals_ms : ℕ
  thermal_threshold_deg : ℚ
  temp_base : ℚ
  monitor_active : Bool
  thermal_changes_callbacks : List ℕ
deriving DecidableEq, Repr

/-- Constructor: `_poll_intervals_ms = 2000`, `_thermal_threshold_deg = 2`,
`_temp_base = 0`; the periodic task is not yet running. -/
def ds5_thermal_monitor.init (cbs : List ℕ) : ds5_thermal_monitor :=
  { poll_intervals_ms := 2000
    thermal_threshold_deg := 2
    temp_base := 0
    monitor_active := false
    thermal_changes_callbacks := cbs }

/-- `_monitor.is_active()`. -/
def ds5_thermal_monitor.is_active (m : ds5_thermal_monitor) : Bool :=
  m.monitor_active

/-- `notify(temperature)`: invoke every registered callback, in order, with
`temperature`.  The method is `const`: the state is returned unchanged. -/
def ds5_thermal_monitor.notify (m : ds5_thermal_monitor) (temperature : ℚ) :
    ds5_thermal_monitor × List (ℕ × ℚ) :=
  (m, m.thermal_changes_callbacks.map (fun cb => (cb, temperature)))

/-- `start()`: if the monitor is not already active, start the periodic task. -/
def ds5_thermal_monitor.start (m : ds5_thermal_monitor) : ds5_thermal_monitor :=
  if m.monitor_active then m else { m with monitor_active := true }

/-- `stop()`: if the monitor is active, stop the periodic task and reset
`_temp_base` to 0. -/
def ds5_thermal_monitor.stop (m : ds5_thermal_monitor) : ds5_thermal_monitor :=
  if m.monitor_active then { m with monitor_active := false, temp_base := 0 }
  else m

/-- `update(on)`: transition only when `on` differs from `is_active()`, and
only when the weak `_dpt_sensor` reference resolves.  Disabling stops the
task and then notifies with 0; enabling starts the task only when the
resolved sensor reports itself opened. -/
def ds5_thermal_monitor.update (m : ds5_thermal_monitor) (enable : Bool)
    (dpt_sensor : Weak synthetic_sensor) : ds5_thermal_monitor × List (ℕ × ℚ) :=
  if enable ≠ m.is_active then
    match dpt_sensor with
    | some snr =>
      if !enable then
        ((m.stop), ((m.stop).notify 0).2)
      else if snr.is_opened then (m.start, [])
      else (m, [])
    | none => (m, [])
  else (m, [])

/-- The temperature-tracking part of one polling iteration (lines 83–100 of
the source): resolve `_temperature_sensor`, query it, and on a delta of at
least `_thermal_threshold_deg` notify and update `_temp_base`.  A failed
lock is logged and skipped; a thrown query is caught by the surrounding
handler and skipped. -/
def ds5_thermal_monitor.sample (m : ds5_thermal_monitor)
    (temperature_sensor : Weak QueryResult) : ds5_thermal_monitor × List (ℕ × ℚ) :=
  match temperature_sensor with
  | none => (m, [])
  | some (Except.error _) => (m, [])
  | some (Except.ok cur_temp) =>
    if m.thermal_threshold_deg ≤ |m.temp_base - cur_temp| then
      ({ m with temp_base := cur_temp }, (m.notify cur_temp).2)
    else (m, [])

/-- One call of `polling(cancellable_timer)`.  `slept` is the result of
`try_sleep`: `false` means shut-down, skip everything.  Otherwise first the
firmware toggle gate: if `_tl_activation` resolves and its queried value has
magnitude below `float_epsilon`, the iteration returns early; a toggle query
that throws is caught by the handler and skips the iteration.  Then the
temperature is tracked by `sample`. -/
def ds5_thermal_monitor.polling (m : ds5_thermal_monitor) (slept : Bool)
    (tl_activation : Weak QueryResult)
    (temperature_sensor : Weak QueryResult) : ds5_thermal_monitor × List (ℕ × ℚ) :=
  if slept then
    match tl_activation with
    | some (Except.error _) => (m, [])
    | some (Except.ok v) =>
      if |v| < float_epsilon then (m, [])
      else m.sample temperature_sensor
    | none => m.sample temperature_sensor
  else (m, [])

/-- A lifecycle call: `start()` or `stop()`. -/
inductive LifecycleOp
  | start
  | stop
deriving DecidableEq, Repr

/-- Apply one lifecycle call. -/
def applyOp (m : ds5_thermal_monitor) : LifecycleOp → ds5_thermal_monitor
  | LifecycleOp.start => m.start
  | LifecycleOp.stop => m.stop

/-- Run a sequence of `start()`/`stop()` calls, left to right. -/
def runOps (m : ds5_thermal_monitor) (ops : List LifecycleOp) : ds5_thermal_monitor :=
  ops.foldl applyOp m

/-- The monitor's baseline invariant: an inactive monitor has baseline 0. -/
def baseline_inv (m : ds5_thermal_monitor) : Prop :=
  m.is_active = false → m.temp_base = 0

/-! Helper lemmas shared by several results. -/

/-- Temperature tracking never changes the running status of the task. -/
theorem sample_preserves_active (m : ds5_thermal_monitor) (temp : Weak QueryResult) :
    (m.sample temp).1.is_active = m.is_active := by
  rcases temp with _ | (e | c)
  · rfl
  · rfl
  · by_cases h : m.thermal_threshold_deg ≤ |m.temp_base - c|
    · simp [ds5_thermal_monitor.sample, h, ds5_thermal_monitor.is_active]
    · simp [ds5_thermal_monitor.sample, h]

/-- A polling iteration never changes the running status of the task. -/
theorem polling_preserves_active (m : ds5_thermal_monitor) (slept : Bool)
    (tl temp : Weak QueryResult) :
    (m.polling slept tl temp).1.is_active = m.is_active := by
  cases slept
  · rfl
  · rcases tl with _ | (e | v)
    · exact sample_preserves_active m temp
    · rfl
    · by_cases hv : |v| < float_epsilon
      · simp [ds5_thermal_monitor.polling, hv]
      · simp [ds5_thermal_monitor.polling, hv, sample_preserves_active]

/-- After `start()` the monitor is active. -/
theorem start_preserves_is_active (m : ds5_thermal_monitor) :
    m.start.is_active = true := by
  by_cases h : m.monitor_active <;>
    simp [ds5_thermal_monitor.start, ds5_thermal_monitor.is_active, h]

/-- After `stop()` the monitor is inactive. -/
theorem stop_not_is_active (m : ds5_thermal_monitor) :
    m.stop.is_active = false := by
  by_cases h : m.monitor_active <;>
    simp [ds5_thermal_monitor.stop, ds5_thermal_monitor.is_active, h]

/-- Unfolding one lifecycle call at the head of a call sequence. -/
theorem runOps_cons (m : ds5_thermal_monitor) (op : LifecycleOp) (ops : List LifecycleOp) :
    runOps m (op :: ops) = runOps (applyOp m op) ops := rfl

/-- After a sequence of `start()`/`stop()` calls, the running status is
decided by the last call of the sequence (or unchanged when it is empty). -/
theorem runOps_is_active (m : ds5_thermal_monitor) (ops : List LifecycleOp) :
    (runOps m ops).is_active =
      (match ops.getLast? with
       | some LifecycleOp.start => true
       | some LifecycleOp.stop => false
       | none => m.is_active) := by
  induction ops generalizing m with
  | nil => rfl
  | cons op t ih =>
    rw [runOps_cons, ih]
    cases t with
    | nil =>
      cases op
      · exact start_preserves_is_active m
      · exact stop_not_is_active m
    | cons b t2 =>
      rw [List.getLast?_cons_cons]
      rcases hlast : (b :: t2).getLast? with _ | l
      · exact absurd hlast (by simp)
      · rcases l <;> rfl

/-! Results about the claims of the specification. -/

/-- Claim C1 (amended): in a sampling step where the toggle capability is
absent, or resolves and its queried value has magnitude at least
`float_epsilon`, and the temperature capability resolves successfully with
value `cur`, a notification fires if and only if
`|baseline_temperature - cur| >= threshold`; when it fires every subscriber
is notified once with `cur` and the baseline becomes `cur`, and when it does
not fire the monitor is unchanged and no subscriber is invoked. -/
theorem polling_notifies_iff_threshold_delta (m : ds5_thermal_monitor)
    (tl : Weak QueryResult) (cur : ℚ)
    (htl : tl = none ∨ ∃ v, tl = some (Except.ok v) ∧ float_epsilon ≤ |v|) :
    (m.thermal_threshold_deg ≤ |m.temp_base - cur| →
      (m.polling true tl (some (Except.ok cur))).2 =
        m.thermal_changes_callbacks.map (fun cb => (cb, cur)) ∧
      (m.polling true tl (some (Except.ok cur))).1.temp_base = cur) ∧
    (|m.temp_base - cur| < m.thermal_threshold_deg →
      (m.polling true tl (some (Except.ok cur))).2 = [] ∧
      (m.polling true tl (some (Except.ok cur))).1 = m) := by
  have hred : m.polling true tl (some (Except.ok cur)) = m.sample (some (Except.ok cur)) := by
    rcases htl with rfl | ⟨v, rfl, hv⟩
    · rfl
    · simp [ds5_thermal_monitor.polling, not_lt.mpr hv]
  rw [hred]
  constructor
  · intro h
    simp [ds5_thermal_monitor.sample, h, ds5_thermal_monitor.notify]
  · intro h
    simp [ds5_thermal_monitor.sample, not_le.mpr h]

/-- Claim C1, witness: with baseline 0, threshold 2, an absent toggle and a
queried temperature 43, the single subscriber is notified with 43 and the
baseline becomes 43. -/
theorem polling_notifies_iff_threshold_delta_witness :
    ((ds5_thermal_monitor.init [3]).polling true none (some (Except.ok 43))).2 = [(3, 43)] ∧
    ((ds5_thermal_monitor.init [3]).polling true none (some (Except.ok 43))).1.temp_base = 43 := by
  have h := (polling_notifies_iff_threshold_delta (ds5_thermal_monitor.init [3]) none 43
    (Or.inl rfl)).1 (by norm_num [ds5_thermal_monitor.init])
  simpa using h

/-- Claim C1, counterexample to the claim as stated: the toggle reads the
non-zero value `2 ^ (-24)`, the temperature capability resolves with 43 and
the threshold delta is met, yet no notification fires and the baseline is
unchanged, because the queried toggle magnitude is below `float_epsilon`. -/
theorem polling_subepsilon_nonzero_toggle_cex :
    (1 / 2 ^ 24 : ℚ) ≠ 0 ∧
    (ds5_thermal_monitor.init [7]).thermal_threshold_deg ≤
      |(ds5_thermal_monitor.init [7]).temp_base - 43| ∧
    ((ds5_thermal_monitor.init [7]).polling true (some (Except.ok (1 / 2 ^ 24)))
      (some (Except.ok 43))).2 = [] ∧
    ((ds5_thermal_monitor.init [7]).polling true (some (Except.ok (1 / 2 ^ 24)))
      (some (Except.ok 43))).1.temp_base = (ds5_thermal_monitor.init [7]).temp_base := by
  have h : |(1 : ℚ) / 2 ^ 24| < float_epsilon := by
    rw [abs_of_pos (by norm_num)] ; norm_num [float_epsilon]
  have h2 : ¬ float_epsilon ≤ |((2 : ℚ) ^ 24)⁻¹| := by
    rw [abs_of_pos (by positivity)] ; norm_num [float_epsilon]
  have hred : (ds5_thermal_monitor.init [7]).polling true (some (Except.ok (1 / 2 ^ 24)))
      (some (Except.ok 43)) = (ds5_thermal_monitor.init [7], []) := by
    simp [ds5_thermal_monitor.polling, h, h2]
  refine ⟨by norm_num, by norm_num [ds5_thermal_monitor.init], ?_, ?_⟩ <;> rw [hred]

/-- Claim C2 (amended): calling `update(false)` while the monitor is active
and the activation reference resolves stops the periodic task, resets the
baseline to 0, leaves the monitor inactive, and notifies every subscriber
exactly once with the value 0. -/
theorem update_disable_stops_and_notifies_zero (m : ds5_thermal_monitor)
    (snr : synthetic_sensor) (h : m.is_active = true) :
    (m.update false (some snr)).1.is_active = false ∧
    (m.update false (some snr)).1.temp_base = 0 ∧
    (m.update false (some snr)).2 =
      m.thermal_changes_callbacks.map (fun cb => (cb, 0)) := by
  have hm : m.monitor_active = true := h
  simp [ds5_thermal_monitor.update, ds5_thermal_monitor.is_active, hm,
    ds5_thermal_monitor.stop, ds5_thermal_monitor.notify]

/-- Claim C2, witness: a started monitor with one subscriber, disabled while
its activation reference resolves, ends inactive with baseline 0 and exactly
one notification carrying 0. -/
theorem update_disable_stops_and_notifies_zero_witness :
    ((((ds5_thermal_monitor.init [5]).start).update false (some ⟨true⟩)).1.is_active = false) ∧
    ((((ds5_thermal_monitor.init [5]).start).update false (some ⟨true⟩)).1.temp_base = 0) ∧
    ((((ds5_thermal_monitor.init [5]).start).update false (some ⟨true⟩)).2 = [(5, 0)]) := by
  have h := update_disable_stops_and_notifies_zero ((ds5_thermal_monitor.init [5]).start)
    ⟨true⟩ (start_preserves_is_active (ds5_thermal_monitor.init [5]))
  simpa [ds5_thermal_monitor.init, ds5_thermal_monitor.start] using h

/-- Claim C2, counterexample to the claim as stated: when the activation
reference does not resolve, `update(false)` on an active monitor performs no
transition at all — the monitor stays active and no subscriber is notified. -/
theorem update_disable_dead_reference_cex :
    (((ds5_thermal_monitor.init [5]).start).is_active = true) ∧
    ((((ds5_thermal_monitor.init [5]).start).update false none).1.is_active = true) ∧
    ((((ds5_thermal_monitor.init [5]).start).update false none).2 = []) := by
  refine ⟨rfl, ?_, ?_⟩ <;> rfl

/-- Claim C3: calling `update(true)` while the monitor is inactive starts the
periodic task if and only if the activation reference resolves to a sensor
reporting itself opened; no notification is ever issued, and when the
reference is gone or the sensor is not opened the monitor is unchanged. -/
theorem update_enable_starts_iff_opened (m : ds5_thermal_monitor)
    (dpt : Weak synthetic_sensor) (h : m.is_active = false) :
    ((m.update true dpt).1.is_active = true ↔
      ∃ snr, dpt = some snr ∧ snr.is_opened = true) ∧
    (m.update true dpt).2 = [] ∧
    ((dpt = none ∨ ∃ snr, dpt = some snr ∧ snr.is_opened = false) →
      (m.update true dpt).1 = m) := by
  have hm : m.monitor_active = false := h
  rcases dpt with _ | snr
  · simp [ds5_thermal_monitor.update, ds5_thermal_monitor.is_active, hm]
  · rcases hsnr : snr.is_opened with _ | _
    · simp [ds5_thermal_monitor.update, ds5_thermal_monitor.is_active, hm, hsnr]
    · simp [ds5_thermal_monitor.update, ds5_thermal_monitor.is_active, hm, hsnr,
        ds5_thermal_monitor.start, start_preserves_is_active]

/-- Claim C3, witness: enabling with an opened sensor starts the task with no
notification; enabling with a closed sensor leaves the monitor unchanged. -/
theorem update_enable_starts_iff_opened_witness :
    (((ds5_thermal_monitor.init [2]).update true (some ⟨true⟩)).1.is_active = true) ∧
    (((ds5_thermal_monitor.init [2]).update true (some ⟨true⟩)).2 = []) ∧
    (((ds5_thermal_monitor.init [2]).update true (some ⟨false⟩)).1 =
      ds5_thermal_monitor.init [2]) := by
  have h1 := update_enable_starts_iff_opened (ds5_thermal_monitor.init [2])
    (some ⟨true⟩) rfl
  have h2 := update_enable_starts_iff_opened (ds5_thermal_monitor.init [2])
    (some ⟨false⟩) rfl
  exact ⟨h1.1.mpr ⟨⟨true⟩, rfl, rfl⟩, h1.2.1, h2.2.2 (Or.inr ⟨⟨false⟩, rfl, rfl⟩)⟩

/-- Claim C4: when the toggle capability resolves and its queried value has
magnitude below `float_epsilon`, the sampling step does nothing at all: the
monitor is unchanged and no subscriber is invoked, whatever the temperature
capability would have returned. -/
theorem polling_toggle_within_epsilon_skips (m : ds5_thermal_monitor) (v : ℚ)
    (temp : Weak QueryResult) (h : |v| < float_epsilon) :
    m.polling true (some (Except.ok v)) temp = (m, []) := by
  simp [ds5_thermal_monitor.polling, h]

/-- Claim C4, witness: toggle value 0 skips the iteration even though the
temperature capability would report 100 degrees above the baseline. -/
theorem polling_toggle_within_epsilon_skips_witness :
    (ds5_thermal_monitor.init [1]).polling true (some (Except.ok 0))
      (some (Except.ok 100)) = (ds5_thermal_monitor.init [1], []) :=
  polling_toggle_within_epsilon_skips (ds5_thermal_monitor.init [1]) 0
    (some (Except.ok 100)) (by norm_num [float_epsilon])

/-- Claim C5: when the temperature capability is unresolvable, or a query of
either capability throws, the sampling step leaves the monitor unchanged and
invokes no subscriber; the step is a total function, so no exception escapes
it and the periodic loop survives to the next interval. -/
theorem polling_failure_contained (m : ds5_thermal_monitor)
    (tl temp : Weak QueryResult)
    (h : temp = none ∨ (∃ e, temp = some (Except.error e)) ∨
      ∃ e, tl = some (Except.error e)) :
    m.polling true tl temp = (m, []) := by
  rcases h with rfl | ⟨e, rfl⟩ | ⟨e, rfl⟩
  · rcases tl with _ | (e' | v')
    · rfl
    · rfl
    · simp [ds5_thermal_monitor.polling, ds5_thermal_monitor.sample]
  · rcases tl with _ | (e' | v')
    · rfl
    · rfl
    · simp [ds5_thermal_monitor.polling, ds5_thermal_monitor.sample]
  · rfl

/-- Claim C5, witness: with both capabilities unresolvable the sampling step
is a no-op. -/
theorem polling_failure_contained_witness :
    (ds5_thermal_monitor.init [9]).polling true none none =
      (ds5_thermal_monitor.init [9], []) :=
  polling_failure_contained (ds5_thermal_monitor.init [9]) none none (Or.inl rfl)

/-- Claim C6: `start()` while active, `stop()` while inactive, and
`update(enable)` with `enable` equal to the current `is_active()` value are
all no-ops that issue no notification, and for every sequence of
`start()`/`stop()` calls `is_active()` reflects the net effect: the last call
of the sequence decides it. -/
theorem lifecycle_idempotent_and_net_effect :
    (∀ m : ds5_thermal_monitor, m.is_active = true → m.start = m) ∧
    (∀ m : ds5_thermal_monitor, m.is_active = false → m.stop = m) ∧
    (∀ (m : ds5_thermal_monitor) (dpt : Weak synthetic_sensor),
      m.update m.is_active dpt = (m, [])) ∧
    (∀ (m : ds5_thermal_monitor) (ops : List LifecycleOp),
      (runOps m ops).is_active =
        (match ops.getLast? with
         | some LifecycleOp.start => true
         | some LifecycleOp.stop => false
         | none => m.is_active)) := by
  refine ⟨fun m h => ?_, fun m h => ?_, fun m dpt => ?_, runOps_is_active⟩
  · have hm : m.monitor_active = true := h
    simp [ds5_thermal_monitor.start, hm]
  · have hm : m.monitor_active = false := h
    simp [ds5_thermal_monitor.stop, hm]
  · simp [ds5_thermal_monitor.update]

/-- Claim C6, witness: a second `start()` is a no-op, `stop()` on a fresh
monitor is a no-op, a redundant `update(false)` is a no-op, and after the
sequence start, stop, start the monitor is active. -/
theorem lifecycle_idempotent_and_net_effect_witness :
    (((ds5_thermal_monitor.init [4]).start).start = (ds5_thermal_monitor.init [4]).start) ∧
    ((ds5_thermal_monitor.init [4]).stop = ds5_thermal_monitor.init [4]) ∧
    ((ds5_thermal_monitor.init [4]).update false none = (ds5_thermal_monitor.init [4], [])) ∧
    ((runOps (ds5_thermal_monitor.init [4])
      [LifecycleOp.start, LifecycleOp.stop, LifecycleOp.start]).is_active = true) := by
  obtain ⟨h1, h2, h3, h4⟩ := lifecycle_idempotent_and_net_effect
  refine ⟨h1 _ (start_preserves_is_active _), h2 _ rfl, ?_, ?_⟩
  · simpa using h3 (ds5_thermal_monitor.init [4]) none
  · simpa using h4 (ds5_thermal_monitor.init [4])
      [LifecycleOp.start, LifecycleOp.stop, LifecycleOp.start]

/-- Claim C7: `stop()` called while the monitor is active leaves the baseline
temperature at 0. -/
theorem stop_resets_baseline (m : ds5_thermal_monitor) (h : m.is_active = true) :
    m.stop.temp_base = 0 := by
  have hm : m.monitor_active = true := h
  simp [ds5_thermal_monitor.stop, hm]

/-- Claim C7, witness: stopping a started monitor resets the baseline to 0. -/
theorem stop_resets_baseline_witness :
    ((ds5_thermal_monitor.init []).start).stop.temp_base = 0 :=
  stop_resets_baseline ((ds5_thermal_monitor.init []).start)
    (start_preserves_is_active (ds5_thermal_monitor.init []))

/-- Claim C8: `notify(v)` invokes exactly one callback per registered
subscriber — the event list has the same length as the subscriber list — and
the i-th event invokes the i-th subscriber, in subscription order, with `v`. -/
theorem notify_each_subscriber_once_in_order (m : ds5_thermal_monitor) (v : ℚ) :
    (m.notify v).2.length = m.thermal_changes_callbacks.length ∧
    ∀ i : Fin m.thermal_changes_callbacks.length,
      (m.notify v).2.get (Fin.cast (by simp [ds5_thermal_monitor.notify]) i) =
        (m.thermal_changes_callbacks.get i, v) := by
  refine ⟨by simp [ds5_thermal_monitor.notify], fun i => ?_⟩
  simp [ds5_thermal_monitor.notify]

/-- Claim C9: the invariant "an inactive monitor has baseline 0" holds at
construction and is preserved by `start`, `stop`, `update`, and by any
sampling step executed while the task is running. -/
theorem baseline_invariant_preserved :
    (∀ cbs : List ℕ, baseline_inv (ds5_thermal_monitor.init cbs)) ∧
    (∀ m : ds5_thermal_monitor, baseline_inv m → baseline_inv m.start) ∧
    (∀ m : ds5_thermal_monitor, baseline_inv m → baseline_inv m.stop) ∧
    (∀ (m : ds5_thermal_monitor) (enable : Bool) (dpt : Weak synthetic_sensor),
      baseline_inv m → baseline_inv (m.update enable dpt).1) ∧
    (∀ (m : ds5_thermal_monitor) (slept : Bool) (tl temp : Weak QueryResult),
      m.is_active = true → baseline_inv (m.polling slept tl temp).1) := by
  have hstart : ∀ m : ds5_thermal_monitor, baseline_inv m → baseline_inv m.start := by
    intro m hm hoff
    rw [start_preserves_is_active m] at hoff
    exact absurd hoff (by simp)
  have hstop : ∀ m : ds5_thermal_monitor, baseline_inv m → baseline_inv m.stop := by
    intro m hm
    by_cases h : m.monitor_active
    · intro _
      simp [ds5_thermal_monitor.stop, h]
    · simpa [ds5_thermal_monitor.stop, h] using hm
  refine ⟨fun cbs _ => rfl, hstart, hstop, fun m enable dpt hm => ?_, fun m slept tl temp hm => ?_⟩
  · rcases dpt with _ | snr
    · simpa [ds5_thermal_monitor.update] using
        (by split <;> simpa using hm :
          baseline_inv (if enable ≠ m.is_active then m else m))
    · by_cases hd : enable ≠ m.is_active
      · rcases enable with _ | _
        · simpa [ds5_thermal_monitor.update, hd, ds5_thermal_monitor.notify] using hstop m hm
        · by_cases ho : snr.is_opened
          · simpa [ds5_thermal_monitor.update, hd, ho] using hstart m hm
          · simpa [ds5_thermal_monitor.update, hd, ho] using hm
      · simpa [ds5_thermal_monitor.update, hd] using hm
  · intro hoff
    rw [polling_preserves_active m slept tl temp] at hoff
    rw [hm] at hoff
    exact absurd hoff (by simp)

/-- Claim C9, witness: the invariant instantiated after `stop()` on a fresh
monitor yields baseline 0. -/
theorem baseline_invariant_preserved_witness :
    ((ds5_thermal_monitor.init [1]).stop).temp_base = 0 :=
  (baseline_invariant_preserved.2.2.1 (ds5_thermal_monitor.init [1]) (fun _ => rfl)) rfl

/-- Claim C10: `notify` modifies no monitor state: the baseline, the running
status, the poll interval, the threshold and the subscriber list are all
unchanged by any `notify` call. -/
theorem notify_modifies_no_state (m : ds5_thermal_monitor) (v : ℚ) :
    (m.notify v).1.temp_base = m.temp_base ∧
    (m.notify v).1.is_active = m.is_active ∧
    (m.notify v).1.poll_intervals_ms = m.poll_intervals_ms ∧
    (m.notify v).1.thermal_threshold_deg = m.thermal_threshold_deg ∧
    (m.notify v).1.thermal_changes_callbacks = m.thermal_changes_callbacks :=
  ⟨rfl, rfl, rfl, rfl, rfl⟩

end LibRS
